import Mathlib

/-!
Verification of the prompt-construction and response-normalization logic of a
browser-based speech-prompt generator.  The development shallowly embeds:

* `src/services/geminiService.ts` — request builder (`durationConstraint`,
  narration/dialogue user prompts, sub-mode selection), response normalizer
  (`generatePrompt`), and the narrator-details helper
  (`generateNarratorDetailsSuggestion`);
* the application component (`src/unnamed/part_000` / `part_001`, two copies of
  the same `App.tsx`) — `handleSubmit`, `handleRemoveCharacter`,
  `prettyErrorMessage`.

JavaScript runtime behaviour relevant to the code is modelled explicitly:
`JSON.parse` is embedded as a fuel-based recursive-descent parser producing a
`Json` value or a diagnostic (every diagnostic begins with "Unexpected ", as the
engine diagnostics do), property access (`obj.field`, which throws on `null`),
optional chaining (`a?.b?.c`), truthiness (`||`, `if (x)`), `parseInt(s, 10)`,
and `Array.prototype.join` / `map` / `filter`.
-/

set_option maxRecDepth 4000

namespace SpeechPrompt

/-- A parsed JSON document, as produced by `JSON.parse`.  Numbers keep their
source lexeme: the program under verification never does arithmetic on them,
only truthiness tests and display. -/
inductive Json where
  | null
  | bool (b : Bool)
  | num (lex : String)
  | str (s : String)
  | arr (elems : List Json)
  | obj (fields : List (String × Json))

/-- A structured parse diagnostic.  `renderParseErr` turns it into the message
exposed on the thrown `SyntaxError`. -/
structure ParseErr where
  found : String

/-- Rendered diagnostic of a failed `JSON.parse`, mirroring the engine's
"Unexpected token …" / "Unexpected end of JSON input" style. -/
def renderParseErr (e : ParseErr) : String :=
  "Unexpected " ++ e.found

/-- JSON insignificant whitespace. -/
def isJsonWs (c : Char) : Bool :=
  c = ' ' || c = '\t' || c = '\n' || c = '\r'

/-- Skip insignificant whitespace. -/
def skipWs (cs : List Char) : List Char :=
  cs.dropWhile isJsonWs

def lbraceC : Char := Char.ofNat 123

def rbraceC : Char := Char.ofNat 125

/-- Value of a hexadecimal digit. -/
def hexVal (c : Char) : Option Nat :=
  if c.isDigit then some (c.toNat - 48)
  else if 'a' ≤ c ∧ c ≤ 'f' then some (c.toNat - 87)
  else if 'A' ≤ c ∧ c ≤ 'F' then some (c.toNat - 55)
  else none

/-- Decode a single-character JSON string escape. -/
def decodeEscape (e : Char) : Option Char :=
  if e = '\"' then some '\"'
  else if e = '\\' then some '\\'
  else if e = '/' then some '/'
  else if e = 'n' then some '\n'
  else if e = 't' then some '\t'
  else if e = 'r' then some '\r'
  else if e = 'b' then some (Char.ofNat 8)
  else if e = 'f' then some (Char.ofNat 12)
  else none

/-- Body of a JSON string literal (after the opening quote), accumulating the
decoded characters in reverse. -/
def parseStrBody (cs : List Char) (acc : List Char) :
    Except ParseErr (String × List Char) :=
  match cs with
  | [] => .error ⟨"end of JSON input in string literal"⟩
  | '\"' :: rest => .ok (String.mk acc.reverse, rest)
  | '\\' :: 'u' :: h1 :: h2 :: h3 :: h4 :: rest =>
    match hexVal h1, hexVal h2, hexVal h3, hexVal h4 with
    | some a, some b, some c, some d =>
      parseStrBody rest (Char.ofNat (((a * 16 + b) * 16 + c) * 16 + d) :: acc)
    | _, _, _, _ => .error ⟨"token in unicode escape in JSON string"⟩
  | '\\' :: e :: rest =>
    match decodeEscape e with
    | some c => parseStrBody rest (c :: acc)
    | none => .error ⟨"escape sequence in JSON string"⟩
  | c :: rest => parseStrBody rest (c :: acc)

/-- Exponent part of a JSON number, given the lexeme consumed so far. -/
def parseExpTail (lex eChars : List Char) (cs : List Char) :
    Except ParseErr (Json × List Char) :=
  let (sgn, cs1) :=
    match cs with
    | '+' :: r => (['+'], r)
    | '-' :: r => (['-'], r)
    | _ => ([], cs)
  let ds := cs1.takeWhile Char.isDigit
  let r := cs1.dropWhile Char.isDigit
  if ds.isEmpty then .error ⟨"token in JSON number exponent"⟩
  else .ok (.num (String.mk (lex ++ eChars ++ sgn ++ ds)), r)

/-- Optional exponent of a JSON number. -/
def parseExp (lex : List Char) (cs : List Char) :
    Except ParseErr (Json × List Char) :=
  match cs with
  | 'e' :: rest => parseExpTail lex ['e'] rest
  | 'E' :: rest => parseExpTail lex ['E'] rest
  | _ => .ok (.num (String.mk lex), cs)

/-- A JSON number starting at `cs` (first char is `'-'` or a digit). -/
def parseNum (cs : List Char) : Except ParseErr (Json × List Char) :=
  let (sgn, cs1) :=
    match cs with
    | '-' :: r => (['-'], r)
    | _ => ([], cs)
  let intDs := cs1.takeWhile Char.isDigit
  let r1 := cs1.dropWhile Char.isDigit
  if intDs.isEmpty then .error ⟨"token - in JSON"⟩
  else if intDs.head? = some '0' ∧ intDs.length > 1 then
    .error ⟨"number with leading zero in JSON"⟩
  else
    match r1 with
    | '.' :: r2 =>
      let fracDs := r2.takeWhile Char.isDigit
      let r3 := r2.dropWhile Char.isDigit
      if fracDs.isEmpty then .error ⟨"token . in JSON number"⟩
      else parseExp (sgn ++ intDs ++ '.' :: fracDs) r3
    | _ => parseExp (sgn ++ intDs) r1

/-- Expect the given literal characters (tail of `null` / `true` / `false`). -/
def expectLit (expected : List Char) (cs : List Char) (v : Json) :
    Except ParseErr (Json × List Char) :=
  if expected.isPrefixOf cs then .ok (v, cs.drop expected.length)
  else .error ⟨"token in JSON literal"⟩

mutual

/-- One JSON value starting at `cs` (leading whitespace allowed). -/
def parseV : Nat → List Char → Except ParseErr (Json × List Char)
  | 0, _ => .error ⟨"recursion depth limit in JSON"⟩
  | f + 1, cs =>
    match skipWs cs with
    | [] => .error ⟨"end of JSON input"⟩
    | c :: rest => parseAfterHead f c rest

/-- Dispatch on the first significant character of a JSON value. -/
def parseAfterHead : Nat → Char → List Char → Except ParseErr (Json × List Char)
  | 0, _, _ => .error ⟨"recursion depth limit in JSON"⟩
  | f + 1, c, rest =>
    if c = 'n' then expectLit ['u', 'l', 'l'] rest .null
    else if c = 't' then expectLit ['r', 'u', 'e'] rest (.bool true)
    else if c = 'f' then expectLit ['a', 'l', 's', 'e'] rest (.bool false)
    else if c = '\"' then
      match parseStrBody rest [] with
      | .error e => .error e
      | .ok (s, r) => .ok (.str s, r)
    else if c = lbraceC then
      match skipWs rest with
      | [] => .error ⟨"end of JSON input in object"⟩
      | c2 :: rest2 =>
        if c2 = rbraceC then .ok (.obj [], rest2)
        else parseObjFields f (c2 :: rest2) []
    else if c = '[' then
      match skipWs rest with
      | [] => .error ⟨"end of JSON input in array"⟩
      | c2 :: rest2 =>
        if c2 = ']' then .ok (.arr [], rest2)
        else parseArrElems f (c2 :: rest2) []
    else if c = '-' ∨ c.isDigit then parseNum (c :: rest)
    else .error ⟨"token " ++ String.singleton c ++ " in JSON"⟩

/-- Comma-separated array elements, accumulated in reverse. -/
def parseArrElems : Nat → List Char → List Json → Except ParseErr (Json × List Char)
  | 0, _, _ => .error ⟨"recursion depth limit in JSON"⟩
  | f + 1, cs, acc =>
    match parseV f cs with
    | .error e => .error e
    | .ok (v, rest) =>
      match skipWs rest with
      | ',' :: r2 => parseArrElems f r2 (v :: acc)
      | ']' :: r2 => .ok (.arr (v :: acc).reverse, r2)
      | _ => .error ⟨"token in JSON array"⟩

/-- Comma-separated object members, accumulated in reverse. -/
def parseObjFields : Nat → List Char → List (String × Json) →
    Except ParseErr (Json × List Char)
  | 0, _, _ => .error ⟨"recursion depth limit in JSON"⟩
  | f + 1, cs, acc =>
    match skipWs cs with
    | '\"' :: r1 =>
      match parseStrBody r1 [] with
      | .error e => .error e
      | .ok (k, r2) =>
        match skipWs r2 with
        | ':' :: r3 =>
          match parseV f r3 with
          | .error e => .error e
          | .ok (v, r4) =>
            match skipWs r4 with
            | [] => .error ⟨"end of JSON input in object"⟩
            | ',' :: r5 => parseObjFields f r5 ((k, v) :: acc)
            | c5 :: r5 =>
              if c5 = rbraceC then .ok (.obj ((k, v) :: acc).reverse, r5)
              else .error ⟨"token in JSON object"⟩
        | _ => .error ⟨"token in JSON object, expected colon"⟩
    | _ => .error ⟨"token in JSON object, expected string key"⟩

end

/-- Embedding of `JSON.parse`: parse a complete JSON document; on failure the rendered
diagnostic is the message of the thrown `SyntaxError`. -/
def Json.parse (s : String) : Except String Json :=
  match parseV (Nat.succ (Nat.succ (4 * s.data.length))) s.data with
  | .error e => .error (renderParseErr e)
  | .ok (v, rest) =>
    match skipWs rest with
    | [] => .ok v
    | c :: _ => .error (renderParseErr ⟨"token " ++ String.singleton c ++ " after JSON document"⟩)

/-! ## JavaScript runtime semantics used by the code -/

/-- Member lookup on a JSON value: `undefined` (`none`) on non-objects and on
absent keys; later duplicate keys shadow earlier ones, as in `JSON.parse`. -/
def jsMember (v : Json) (k : String) : Option Json :=
  match v with
  | .obj fields => (fields.reverse.find? (fun p => p.1 = k)).map (·.2)
  | _ => none

/-- Plain property access `v.k`: throws a `TypeError` when `v` is `null`
(with the engine's message), otherwise yields the member or `undefined`. -/
def jsAccess (v : Json) (k : String) : Except String (Option Json) :=
  match v with
  | .null => .error ("Cannot read properties of null (reading \x27" ++ k ++ "\x27)")
  | _ => .ok (jsMember v k)

/-- Optional chaining `v?.k1?.k2`, as used by `parsed?.error?.message`. -/
def jsOptChain2 (v : Json) (k1 k2 : String) : Option Json :=
  match v with
  | .null => none
  | _ =>
    match jsMember v k1 with
    | none => none
    | some .null => none
    | some w => jsMember w k2

/-- Whether a JSON number lexeme denotes zero (its mantissa digits are all
`'0'`). -/
def jsonNumIsZero (lex : String) : Bool :=
  ((lex.data.takeWhile (fun c => c ≠ 'e' ∧ c ≠ 'E')).filter Char.isDigit).all (· = '0')

/-- JavaScript truthiness of a possibly-`undefined` value, as tested by
`if (x)` and `x || y`. -/
def jsTruthy : Option Json → Bool
  | none => false
  | some .null => false
  | some (.bool b) => b
  | some (.num lex) => !jsonNumIsZero lex
  | some (.str s) => s ≠ ""
  | some (.arr _) => true
  | some (.obj _) => true

/-- String conversion of a value in a template literal.  The code only ever
interpolates strings here; the other cases follow JavaScript conventions
(arrays join their elements, objects print "[object Object]"). -/
def jsTemplateStr : Json → String
  | .null => "null"
  | .bool b => if b then "true" else "false"
  | .num lex => lex
  | .str s => s
  | .arr _ => "[object Object]"
  | .obj _ => "[object Object]"

/-- Embedding of `String.prototype.trim()`: strip leading and trailing whitespace.
(Defined over the character list so that it evaluates inside the kernel.) -/
def jsTrim (s : String) : String :=
  String.mk (((s.data.dropWhile Char.isWhitespace).reverse.dropWhile Char.isWhitespace).reverse)

/-- Embedding of `parseInt(s, 10)`: skip leading whitespace, read an optional sign and the
longest digit prefix; `NaN` (`none`) when no digit is found. -/
def jsParseInt (s : String) : Option Int :=
  let cs := s.data.dropWhile isJsonWs
  match cs with
  | '-' :: rest =>
    let ds := rest.takeWhile Char.isDigit
    if ds.isEmpty then none else some (-(Nat.ofDigits 10 (ds.map (fun c => c.toNat - 48)).reverse : Int))
  | '+' :: rest =>
    let ds := rest.takeWhile Char.isDigit
    if ds.isEmpty then none else some (Nat.ofDigits 10 (ds.map (fun c => c.toNat - 48)).reverse : Int)
  | _ =>
    let ds := cs.takeWhile Char.isDigit
    if ds.isEmpty then none else some (Nat.ofDigits 10 (ds.map (fun c => c.toNat - 48)).reverse : Int)

/-- Embedding of `Array.prototype.join(sep)` on a list of strings. -/
def joinSep (sep : String) : List String → String
  | [] => ""
  | [x] => x
  | x :: xs => x ++ sep ++ joinSep sep xs

/-! ## Data model (`src/types.ts`) -/

/-- Type `SpeechType` from `types.ts` (the enum values are the Korean UI labels;
only the tag matters). -/
inductive SpeechType where
  | narration
  | oneOnOne
  | multi
deriving DecidableEq, Repr

/-- Type `Character` from `types.ts`.  The optional `imageTouch` is irrelevant to the verified
logic but kept for shape fidelity. -/
structure Character where
  id : String
  name : String
  persona : String
  imageTouch : String := ""
deriving DecidableEq, Repr

/-- Type `ScriptLine` from `types.ts`. -/
structure ScriptLine where
  id : String
  characterId : String
  line : String
  emotion : String
  tone : String
deriving DecidableEq, Repr

/-- Type `NarrationRequest`.  The declaration in `types.ts` omits `duration`, but `handleSubmit`
passes it and `generatePrompt` reads `r.duration`, so the runtime shape has
it; it is the empty string when the field is left blank. -/
structure NarrationRequest where
  scenario : String
  persona : String
  emotion : String
  tone : String
  environment : String
  duration : String
deriving DecidableEq, Repr

/-- Type `DialogueRequest` (both `ONE_ON_ONE` and `MULTI` take the same branch of
`generatePrompt`, so the sub-tag is not carried).  `duration` as above. -/
structure DialogueRequest where
  scenario : String
  characters : List Character
  script : List ScriptLine
  duration : String
deriving DecidableEq, Repr

/-- The `PromptRequest` tagged union. -/
inductive PromptRequest where
  | narration (r : NarrationRequest)
  | dialogue (r : DialogueRequest)
deriving DecidableEq, Repr

/-- Type `GeneratedPrompt`.  The declaration in `types.ts` has `integrated : string`, but the
value actually stored is whatever `parsedJson.integrated_text || fallback`
evaluates to, so it is kept as a `Json` value. -/
structure GeneratedPrompt where
  json : Json
  integrated : Json

/-- Outcome of one call to the external model boundary
(`ai.models.generateContent`): the raw response text, or a thrown `Error`
with its message, or a thrown non-`Error` value. -/
inductive BoundaryOutcome where
  | ok (text : String)
  | errorWithMessage (m : String)
  | unknownThrow

/-! ## Request builder (`src/services/geminiService.ts`, `generatePrompt`) -/

/-- The two response-schema descriptors defined in the service. -/
inductive SchemaId where
  | narrationSchema
  | dialogueSchema
deriving DecidableEq, Repr

/-- Embedding of `durationConstraint` (geminiService.ts lines 63–70). -/
def durationConstraint (duration : String) : String :=
  if duration = "" then ""
  else
    match jsParseInt duration with
    | some parsedDuration =>
      if 0 < parsedDuration then
        "\n- The total length should be approximately " ++ toString parsedDuration ++ " seconds."
      else ""
    | none => ""

/-- The narration instruction text before the optional duration clause
(template literal, lines 74–81). -/
def narrationPromptBase (r : NarrationRequest) : String :=
  "\n      Generate a speech prompt for a narration.\n      - Scenario: " ++ r.scenario ++
  "\n      - Narrator\x27s Persona: " ++ r.persona ++
  "\n      - Primary Emotion: " ++ r.emotion ++
  "\n      - Vocal Tones: " ++ r.tone ++
  "\n      - Environment: " ++ r.environment ++
  "\n      The narration should be descriptive, immersive, and set a clear mood based on these details. The environment should influence the tone and description."

/-- The full narration instruction text. -/
def narrationUserPrompt (r : NarrationRequest) : String :=
  narrationPromptBase r ++ durationConstraint r.duration

/-- Embedding of `characterDescriptions` (line 85): `r.characters.map(c => ...).join('\n')`. -/
def characterDescriptions (characters : List Character) : String :=
  joinSep "\n" (characters.map (fun c => "- " ++ c.name ++ ": " ++ c.persona))

/-- Embedding of `hasScript` (line 87): at least one script line with non-empty trimmed
text (the `r.script &&` guard is vacuous for a typed list). -/
def hasScript (r : DialogueRequest) : Bool :=
  r.script.length > 0 && r.script.any (fun l => jsTrim l.line ≠ "")

/-- The dialogue sub-mode the builder operates in. -/
inductive DialogueSubMode where
  | formatExisting
  | fromScratch
deriving DecidableEq, Repr

/-- Sub-mode selection: the `if (hasScript)` branch of lines 89–115. -/
def selectSubMode (r : DialogueRequest) : DialogueSubMode :=
  if hasScript r then .formatExisting else .fromScratch

/-- Character-name lookup through `characterMap` (line 90) combined with the
`|| 'Unknown Character'` fallback of line 94: the last binding for an id wins
(Map semantics), and a falsy (empty) name falls back too. -/
def charNameFor (characters : List Character) (characterId : String) : String :=
  match characters.reverse.find? (fun c => c.id = characterId) with
  | some c => if c.name = "" then "Unknown Character" else c.name
  | none => "Unknown Character"

/-- Rendering of one script line (lines 93–96). -/
def renderScriptLine (characters : List Character) (l : ScriptLine) : String :=
  charNameFor characters l.characterId ++ ": \"" ++ l.line ++ "\" (Emotion: " ++
    (if l.emotion = "" then "not specified" else l.emotion) ++ ", Tone: " ++
    (if l.tone = "" then "not specified" else l.tone) ++ ")"

/-- Embedding of `scriptContent` (lines 91–97): filter non-empty lines, render, join. -/
def scriptContent (r : DialogueRequest) : String :=
  joinSep "\n" (((r.script.filter (fun l => jsTrim l.line ≠ "")).map (renderScriptLine r.characters)))

/-- The dialogue instruction text (lines 89–115): format-existing-script when
`hasScript`, generate-from-scratch otherwise. -/
def dialogueUserPrompt (r : DialogueRequest) : String :=
  if hasScript r then
    "\n          Generate and format a speech prompt for a dialogue based on the user-provided script.\n          - Scenario: " ++ r.scenario ++
    "\n          - Characters:\n" ++ characterDescriptions r.characters ++
    "\n          - User-provided Script:\n" ++ scriptContent r ++
    "\n          \n          Your task is to take the provided script and format it perfectly into the required JSON structure.\n          Refine the emotion and tone descriptions to be more evocative and detailed where appropriate, but strictly adhere to the dialogue lines and character assignments from the script.\n          The \x27integrated_text\x27 should be a clean, readable script format of the final dialogue." ++
    durationConstraint r.duration
  else
    "\n          Generate a speech prompt for a dialogue.\n          - Scenario: " ++ r.scenario ++
    "\n          - Characters:\n" ++ characterDescriptions r.characters ++
    "\n          The dialogue should be dramatic and engaging. Each line in the script must have a specified character, the line of dialogue, a primary emotion, and a specific tone/direction.\n          Generate a complete script from scratch based on the scenario and characters provided." ++
    durationConstraint r.duration

/-- The `(userPrompt, schema)` pair the builder hands to the model call
(lines 59–117). -/
def buildRequest (request : PromptRequest) : String × SchemaId :=
  match request with
  | .narration r => (narrationUserPrompt r, .narrationSchema)
  | .dialogue r => (dialogueUserPrompt r, .dialogueSchema)

/-! ## Response normalizer (`generatePrompt`, lines 119–144) -/

/-- The fixed error marker prepended when re-throwing an `Error`. -/
def geminiApiErrorMarker : String := "Gemini API Error: "

/-- The fixed fallback for a falsy `integrated_text` (line 135). -/
def integratedFallback : String := "Failed to generate integrated text."

/-- Embedding of `generatePrompt`, given the outcome of the model call: trim and parse the
response, read `parsedJson.integrated_text` (property access on `null`
throws), substitute the fallback on a falsy value.  Every `Error` thrown
inside the `try` — `SyntaxError` from `JSON.parse`, `TypeError` from the
member access, or the boundary's own error — is re-thrown as
`Error("Gemini API Error: " + message)`; a non-`Error` throw becomes the
fixed unknown-error message. -/
def generatePrompt (_request : PromptRequest) (call : BoundaryOutcome) :
    Except String GeneratedPrompt :=
  match call with
  | .unknownThrow => .error "An unknown error occurred while contacting the Gemini API."
  | .errorWithMessage m => .error (geminiApiErrorMarker ++ m)
  | .ok text =>
    match Json.parse (jsTrim text) with
    | .error d => .error (geminiApiErrorMarker ++ d)
    | .ok parsedJson =>
      match jsAccess parsedJson "integrated_text" with
      | .error m => .error (geminiApiErrorMarker ++ m)
      | .ok field =>
        .ok { json := parsedJson
              integrated := if jsTruthy field then field.getD .null else .str integratedFallback }

/-- Embedding of `generateNarratorDetailsSuggestion` (lines 174–201): parse the trimmed
response and return it unchanged; any thrown error — parse failure included —
is replaced by the fixed message `"Failed to generate narrator details."`. -/
def generateNarratorDetailsSuggestion (call : BoundaryOutcome) : Except String Json :=
  match call with
  | .ok text =>
    match Json.parse (jsTrim text) with
    | .ok v => .ok v
    | .error _ => .error "Failed to generate narrator details."
  | _ => .error "Failed to generate narrator details."

/-! ## Application component (`src/unnamed/part_000` and `part_001`)

Both unnamed files are revisions of the same `App.tsx`; the logic embedded
below (`handleSubmit` validation and request shaping, `handleRemoveCharacter`,
`prettyErrorMessage`) is identical in the two, except that `part_000`
additionally carries a `numberOfSections` field, which none of the verified
logic reads. -/

/-- The form state read by `handleSubmit` and the roster handlers. -/
structure FormState where
  speechType : SpeechType
  scenario : String
  duration : String
  persona : String
  emotion : String
  tone : String
  environment : String
  characters : List Character
  script : List ScriptLine
deriving DecidableEq, Repr

/-- The pre-flight validation signals `handleSubmit` can raise.
`errorCharacterNeeded` stands for the localized string
`T.errorCharacterNeeded` (the i18n table itself is not part of the sources;
the spec describes it as the "need at least one character" signal). -/
inductive ValidationSignal where
  | errorCharacterNeeded
deriving DecidableEq, Repr

/-- What one invocation of `handleSubmit` does before any asynchronous work:
either reject locally with a validation signal (`setError(...)`; no call to
`generatePrompt`), or invoke `generatePrompt` with the assembled request. -/
inductive SubmitAction where
  | reject (signal : ValidationSignal)
  | callModel (request : PromptRequest)
deriving DecidableEq, Repr

/-- Embedding of `handleSubmit` (part_001 lines 89–115, part_000 lines 215–241): narration
submits the narration fields directly; dialogue first filters characters to
those with non-empty trimmed name and persona, rejecting with
`errorCharacterNeeded` when none remain, and otherwise submits the filtered
characters together with the script lines that have non-empty trimmed text
and a truthy (non-empty) `characterId`. -/
def handleSubmit (st : FormState) : SubmitAction :=
  match st.speechType with
  | .narration =>
    .callModel (.narration
      { scenario := st.scenario, persona := st.persona, emotion := st.emotion,
        tone := st.tone, environment := st.environment, duration := st.duration })
  | _ =>
    let finalCharacters := st.characters.filter (fun c => jsTrim c.name ≠ "" && jsTrim c.persona ≠ "")
    if finalCharacters.length = 0 then .reject .errorCharacterNeeded
    else
      .callModel (.dialogue
        { scenario := st.scenario, characters := finalCharacters,
          script := st.script.filter (fun l => jsTrim l.line ≠ "" && l.characterId ≠ ""),
          duration := st.duration })

/-- Embedding of `handleRemoveCharacter` (part_001 lines 78–81, part_000 lines 205–208):
drop the character with the given id and blank the `characterId` of every
script line that referenced it. -/
def handleRemoveCharacter (id : String) (characters : List Character)
    (script : List ScriptLine) : List Character × List ScriptLine :=
  (characters.filter (fun c => c.id ≠ id),
   script.map (fun l => if l.characterId = id then { l with characterId := "" } else l))

/-- Embedding of `prettyErrorMessage` (part_001 lines 182–199, part_000 lines 292–309),
abstracted over the localized prefix `T.geminiErrorPrefix`: when the error
string starts with the fixed marker, JSON-decode the suffix; on decode
failure display the localized prefix with the raw suffix, on decode success
with a truthy `parsed?.error?.message` display the localized prefix with that
message, and in every other case return the error string unchanged. -/
def prettyErrorMessage (geminiErrorPrefixLoc : String) (error : String) : String :=
  if geminiApiErrorMarker.data.isPrefixOf error.data then
    let jsonPart := String.mk (error.data.drop geminiApiErrorMarker.data.length)
    match Json.parse jsonPart with
    | .error _ => geminiErrorPrefixLoc ++ ": " ++ jsonPart
    | .ok parsed =>
      match jsOptChain2 parsed "error" "message" with
      | some msg =>
        if jsTruthy (some msg) then geminiErrorPrefixLoc ++ ": " ++ jsTemplateStr msg
        else error
      | none => error
  else error

/-! ## Helper lemmas -/

/-- Predicate: `s` occurs verbatim as a contiguous substring of `t`. -/
def isSubstrOf (s t : String) : Prop := ∃ a b, t = a ++ s ++ b

theorem isSubstrOf_refl (s : String) : isSubstrOf s s :=
  ⟨"", "", by simp [String.empty_append, String.append_empty]⟩

theorem isSubstrOf_appendL (u : String) {s t : String} (h : isSubstrOf s t) :
    isSubstrOf s (u ++ t) := by
  obtain ⟨a, b, rfl⟩ := h
  exact ⟨u ++ a, b, by simp [String.append_assoc]⟩

theorem isSubstrOf_appendR (u : String) {s t : String} (h : isSubstrOf s t) :
    isSubstrOf s (t ++ u) := by
  obtain ⟨a, b, rfl⟩ := h
  exact ⟨a, b ++ u, by simp [String.append_assoc]⟩

theorem isSubstrOf_trans {s t u : String} (h1 : isSubstrOf s t) (h2 : isSubstrOf t u) :
    isSubstrOf s u := by
  obtain ⟨a, b, rfl⟩ := h1
  obtain ⟨c, d, rfl⟩ := h2
  exact ⟨c ++ a, b ++ d, by simp [String.append_assoc]⟩

theorem mem_isSubstrOf_joinSep (sep : String) {x : String} {xs : List String}
    (h : x ∈ xs) : isSubstrOf x (joinSep sep xs) := by
  induction xs with
  | nil => cases h
  | cons y ys ih =>
    cases ys with
    | nil =>
      rcases List.mem_cons.mp h with rfl | h2
      · exact isSubstrOf_refl x
      · cases h2
    | cons z zs =>
      rcases List.mem_cons.mp h with rfl | h2
      · exact ⟨"", sep ++ joinSep sep (z :: zs), by
          simp [joinSep, String.empty_append, String.append_assoc]⟩
      · have hj : joinSep sep (y :: z :: zs) = (y ++ sep) ++ joinSep sep (z :: zs) := by
          simp [joinSep, String.append_assoc]
        rw [hj]
        exact isSubstrOf_appendL (y ++ sep) (ih h2)

/-- Every diagnostic coming out of `Json.parse` is a rendered `ParseErr`. -/
theorem Json.parse_error_shape {s d : String} (h : Json.parse s = .error d) :
    ∃ e : ParseErr, d = renderParseErr e := by
  unfold Json.parse at h
  cases hp : parseV (Nat.succ (Nat.succ (4 * s.data.length))) s.data with
  | error e =>
    rw [hp] at h
    exact ⟨e, (Except.error.injEq _ _).mp h.symm⟩
  | ok p =>
    rw [hp] at h
    obtain ⟨v, rest⟩ := p
    dsimp only at h
    cases hw : skipWs rest with
    | nil => rw [hw] at h; cases h
    | cons c cs =>
      rw [hw] at h
      exact ⟨⟨"token " ++ String.singleton c ++ " after JSON document"⟩,
        (Except.error.injEq _ _).mp h.symm⟩

/-- A string whose first character is `'U'` is not valid JSON. -/
theorem Json.parse_head_U {s : String} {cs : List Char} (h : s.data = 'U' :: cs) :
    ∃ d, Json.parse s = .error d := by
  unfold Json.parse
  rw [h]
  have hskip : skipWs ('U' :: cs) = 'U' :: cs := by
    simp [skipWs, List.dropWhile, isJsonWs]
  rw [parseV, hskip]
  dsimp only
  rw [parseAfterHead.eq_def]
  dsimp only
  simp [lbraceC]

/-- A rendered parse diagnostic (which starts with "Unexpected") is itself
never valid JSON — this is what keeps the caller's decode test sound. -/
theorem Json.parse_renderParseErr (e : ParseErr) :
    ∃ d, Json.parse (renderParseErr e) = .error d := by
  have h : (renderParseErr e).data = 'U' :: ("nexpected ".data ++ e.found.data) := by
    rw [renderParseErr, String.data_append]
    rfl
  exact Json.parse_head_U h

/-- Behaviour of `prettyErrorMessage` on a marker-prefixed error string, with
the suffix recovered exactly. -/
theorem prettyErrorMessage_marker (loc body : String) :
    prettyErrorMessage loc (geminiApiErrorMarker ++ body) =
      match Json.parse body with
      | .error _ => loc ++ ": " ++ body
      | .ok parsed =>
        match jsOptChain2 parsed "error" "message" with
        | some msg =>
          if jsTruthy (some msg) then loc ++ ": " ++ jsTemplateStr msg
          else geminiApiErrorMarker ++ body
        | none => geminiApiErrorMarker ++ body := by
  have hpre : geminiApiErrorMarker.data.isPrefixOf (geminiApiErrorMarker ++ body).data = true := by
    rw [String.data_append]
    simp [ List.isPrefixOf_iff_prefix]
  have hdrop : (geminiApiErrorMarker ++ body).data.drop geminiApiErrorMarker.data.length
      = body.data := by
    rw [String.data_append, List.drop_left]
  have hmk : String.mk body.data = body := rfl
  unfold prettyErrorMessage
  rw [if_pos hpre, hdrop, hmk]

/-- A wrapped parse diagnostic always takes the decode-failure branch of
`prettyErrorMessage`: the displayed text is the localized prefix with the raw
diagnostic. -/
theorem prettyErrorMessage_parse_diag (loc : String) {s d : String}
    (h : Json.parse s = .error d) :
    prettyErrorMessage loc (geminiApiErrorMarker ++ d) = loc ++ ": " ++ d := by
  obtain ⟨e, rfl⟩ := Json.parse_error_shape h
  obtain ⟨d2, hd2⟩ := Json.parse_renderParseErr e
  rw [prettyErrorMessage_marker, hd2]


/-- The builder enters format-existing-script mode exactly when some script
line has non-empty trimmed text. -/
theorem hasScript_iff (r : DialogueRequest) :
    hasScript r = true ↔ ∃ l ∈ r.script, jsTrim l.line ≠ "" := by
  simp only [hasScript, Bool.and_eq_true, decide_eq_true_eq, List.any_eq_true]
  constructor
  · rintro ⟨-, l, hl, h⟩
    exact ⟨l, hl, by simpa using h⟩
  · rintro ⟨l, hl, h⟩
    exact ⟨List.length_pos.mpr (List.ne_nil_of_mem hl), l, hl, by simpa using h⟩

/-- C1 (counterexample): a dialogue request whose only script line has
non-empty text but an unassigned character (empty `characterId`) satisfies
"every script line has empty text or an unassigned character", yet
`generatePrompt` selects the format-existing-script sub-mode, not
generate-from-scratch. -/
theorem C1_counterexample :
    (∀ l ∈ (DialogueRequest.mk "A quiet street"
        [Character.mk "char-1" "Alice" "a brave hero" ""]
        [ScriptLine.mk "line-1" "" "Hello" "" ""] "").script,
      jsTrim l.line = "" ∨ l.characterId = "") ∧
    selectSubMode (DialogueRequest.mk "A quiet street"
        [Character.mk "char-1" "Alice" "a brave hero" ""]
        [ScriptLine.mk "line-1" "" "Hello" "" ""] "") = .formatExisting := by
  constructor
  · decide
  · decide

/-- C1 (amended): sub-mode selection depends only on script-line text — the
builder picks generate-from-scratch exactly when every script line has empty
trimmed text, and format-existing-script exactly when at least one line has
non-empty trimmed text; character assignment plays no role. -/
theorem C1_subMode_selection (r : DialogueRequest) :
    (selectSubMode r = .fromScratch ↔ ∀ l ∈ r.script, jsTrim l.line = "") ∧
    (selectSubMode r = .formatExisting ↔ ∃ l ∈ r.script, jsTrim l.line ≠ "") := by
  by_cases h : hasScript r = true
  · obtain ⟨l, hl, hne⟩ := (hasScript_iff r).mp h
    rw [selectSubMode, if_pos h]
    constructor
    · exact ⟨fun hcon => (nomatch hcon), fun hall => absurd (hall l hl) hne⟩
    · exact ⟨fun _ => ⟨l, hl, hne⟩, fun _ => rfl⟩
  · have hnone : ∀ l ∈ r.script, jsTrim l.line = "" := by
      by_contra hcon
      push_neg at hcon
      obtain ⟨l, hl, hne⟩ := hcon
      exact h ((hasScript_iff r).mpr ⟨l, hl, hne⟩)
    rw [selectSubMode, if_neg h]
    constructor
    · exact ⟨fun _ => hnone, fun _ => rfl⟩
    · constructor
      · intro hcon; cases hcon
      · rintro ⟨l, hl, hne⟩
        exact absurd (hnone l hl) hne

/-- C1 (witness): the amended selection rule applied to a concrete request
with one non-empty assigned line. -/
theorem C1_subMode_selection_witness :
    selectSubMode (DialogueRequest.mk "s"
        [Character.mk "char-1" "Alice" "a brave hero" ""]
        [ScriptLine.mk "line-1" "char-1" "Hello there" "calm" "soft"] "")
      = .formatExisting :=
  (C1_subMode_selection _).2.mpr
    ⟨ScriptLine.mk "line-1" "char-1" "Hello there" "calm" "soft",
      by decide, by decide⟩


/-- In format-existing-script mode, the joined script rendering is a
substring of the instruction text. -/
theorem scriptContent_isSubstrOf {r : DialogueRequest} (h : hasScript r = true) :
    isSubstrOf (scriptContent r) (dialogueUserPrompt r) := by
  rw [dialogueUserPrompt, if_pos h]
  exact isSubstrOf_appendR _ (isSubstrOf_appendR _ (isSubstrOf_appendL _ (isSubstrOf_refl _)))

/-- C2: whenever a dialogue request has a script line with non-empty trimmed
text, the builder is in format-existing-script mode and that line's full
rendering — the character name, the exact line text in double quotes, and the
emotion/tone annotation — appears verbatim in the instruction text; in
particular the quoted line text itself is a substring. -/
theorem C2_script_lines_verbatim (r : DialogueRequest) (l : ScriptLine)
    (hmem : l ∈ r.script) (hne : jsTrim l.line ≠ "") :
    selectSubMode r = .formatExisting ∧
    isSubstrOf (renderScriptLine r.characters l) (dialogueUserPrompt r) ∧
    isSubstrOf ("\"" ++ l.line ++ "\"") (dialogueUserPrompt r) := by
  have hhs : hasScript r = true := (hasScript_iff r).mpr ⟨l, hmem, hne⟩
  have hmem2 : renderScriptLine r.characters l ∈
      (r.script.filter (fun l => jsTrim l.line ≠ "")).map (renderScriptLine r.characters) :=
    List.mem_map_of_mem _ (List.mem_filter.mpr ⟨hmem, by simpa using hne⟩)
  have hrender : isSubstrOf (renderScriptLine r.characters l) (dialogueUserPrompt r) :=
    isSubstrOf_trans (mem_isSubstrOf_joinSep "\n" hmem2) (scriptContent_isSubstrOf hhs)
  refine ⟨by rw [selectSubMode, if_pos hhs], hrender, isSubstrOf_trans ?_ hrender⟩
  refine ⟨charNameFor r.characters l.characterId ++ ": ",
    " (Emotion: " ++ (if l.emotion = "" then "not specified" else l.emotion) ++
      ", Tone: " ++ (if l.tone = "" then "not specified" else l.tone) ++ ")", ?_⟩
  rw [renderScriptLine]
  simp only [show (": \"" : String) = ": " ++ "\"" from rfl,
    show ("\" (Emotion: " : String) = "\"" ++ " (Emotion: " from rfl,
    String.append_assoc]

/-- C2 (witness): a concrete dialogue request whose single line appears
verbatim, quoted and annotated, in the generated instruction. -/
theorem C2_script_lines_verbatim_witness :
    selectSubMode (DialogueRequest.mk "A farewell at dawn"
        [Character.mk "char-1" "Alice" "a brave hero" ""]
        [ScriptLine.mk "line-1" "char-1" "Hello there" "excited" "warm"] "")
      = .formatExisting ∧
    isSubstrOf (renderScriptLine [Character.mk "char-1" "Alice" "a brave hero" ""]
        (ScriptLine.mk "line-1" "char-1" "Hello there" "excited" "warm"))
      (dialogueUserPrompt (DialogueRequest.mk "A farewell at dawn"
        [Character.mk "char-1" "Alice" "a brave hero" ""]
        [ScriptLine.mk "line-1" "char-1" "Hello there" "excited" "warm"] "")) ∧
    isSubstrOf ("\"" ++ "Hello there" ++ "\"")
      (dialogueUserPrompt (DialogueRequest.mk "A farewell at dawn"
        [Character.mk "char-1" "Alice" "a brave hero" ""]
        [ScriptLine.mk "line-1" "char-1" "Hello there" "excited" "warm"] "")) :=
  C2_script_lines_verbatim _ _ (by decide) (by decide)


/-- C3: a Narration request whose duration parses (per `parseInt(s, 10)`) to
a positive integer N yields an instruction text containing
"approximately N seconds"; when the duration is absent/non-numeric (parses to
`NaN`) or non-positive, no duration clause is appended and the instruction
text is exactly the base narration text. -/
theorem C3_duration_clause :
    (∀ (r : NarrationRequest) (n : Int), jsParseInt r.duration = some n → 0 < n →
      isSubstrOf ("approximately " ++ toString n ++ " seconds") (narrationUserPrompt r)) ∧
    (∀ r : NarrationRequest,
      (jsParseInt r.duration = none ∨ ∃ n, jsParseInt r.duration = some n ∧ n ≤ 0) →
      narrationUserPrompt r = narrationPromptBase r) := by
  constructor
  · intro r n h hpos
    have hne : r.duration ≠ "" := by
      intro he
      have hnil : jsParseInt "" = none := rfl
      rw [he, hnil] at h
      cases h
    have hdc : durationConstraint r.duration =
        "\n- The total length should be approximately " ++ toString n ++ " seconds." := by
      rw [durationConstraint, if_neg hne, h]
      dsimp only
      rw [if_pos hpos]
    rw [narrationUserPrompt, hdc]
    refine ⟨narrationPromptBase r ++ "\n- The total length should be ", ".", ?_⟩
    simp only [show ("\n- The total length should be approximately " : String) =
        "\n- The total length should be " ++ "approximately " from rfl,
      show (" seconds." : String) = " seconds" ++ "." from rfl,
      String.append_assoc]
  · intro r h
    have hdc : durationConstraint r.duration = "" := by
      rw [durationConstraint]
      by_cases he : r.duration = ""
      · rw [if_pos he]
      · rw [if_neg he]
        rcases h with hn | ⟨n, hs, hle⟩
        · rw [hn]
        · rw [hs]
          dsimp only
          rw [if_neg (by omega)]
    rw [narrationUserPrompt, hdc, String.append_empty]

/-- C3 (witness): duration "30" produces the clause, duration "abc" leaves
the instruction equal to the base text. -/
theorem C3_duration_clause_witness :
    isSubstrOf ("approximately " ++ toString (30 : Int) ++ " seconds")
      (narrationUserPrompt (NarrationRequest.mk "A stormy night at sea" "weary sailor"
        "dread" "hushed" "ship deck" "30")) ∧
    narrationUserPrompt (NarrationRequest.mk "A stormy night at sea" "weary sailor"
        "dread" "hushed" "ship deck" "abc") =
      narrationPromptBase (NarrationRequest.mk "A stormy night at sea" "weary sailor"
        "dread" "hushed" "ship deck" "abc") :=
  ⟨C3_duration_clause.1 _ 30 rfl (by decide), C3_duration_clause.2 _ (Or.inl rfl)⟩


/-- C4: on the main generation path a JSON parse failure is surfaced as an
error whose message is the fixed marker followed by the parse diagnostic
(the malformed-response case), a model-boundary error is surfaced as the
marker followed by the boundary's own message (the external-service case),
and the caller can tell the two apart: the displayed message for a wrapped
parse diagnostic always comes from the decode-failure branch of
`prettyErrorMessage` (a diagnostic never JSON-decodes), while a wrapped
API-level `{error:{message}}` body decodes and displays only the inner
message. -/
theorem C4_error_kinds_distinct :
    (∀ (req : PromptRequest) (raw d : String), Json.parse (jsTrim raw) = .error d →
      generatePrompt req (.ok raw) = .error (geminiApiErrorMarker ++ d)) ∧
    (∀ (req : PromptRequest) (m : String),
      generatePrompt req (.errorWithMessage m) = .error (geminiApiErrorMarker ++ m)) ∧
    (∀ (loc s d : String), Json.parse s = .error d →
      prettyErrorMessage loc (geminiApiErrorMarker ++ d) = loc ++ ": " ++ d) ∧
    (∀ loc : String,
      prettyErrorMessage loc
        "Gemini API Error: \x7b\"error\":\x7b\"message\":\"quota exceeded\"\x7d\x7d" =
        loc ++ ": quota exceeded") := by
  refine ⟨?_, ?_, ?_, ?_⟩
  · intro req raw d h
    rw [generatePrompt, h]
  · intro req m
    rfl
  · intro loc s d h
    exact prettyErrorMessage_parse_diag loc h
  · intro loc
    rw [show ("Gemini API Error: \x7b\"error\":\x7b\"message\":\"quota exceeded\"\x7d\x7d" : String) =
        geminiApiErrorMarker ++ "\x7b\"error\":\x7b\"message\":\"quota exceeded\"\x7d\x7d" from rfl,
      prettyErrorMessage_marker]
    rw [show Json.parse "\x7b\"error\":\x7b\"message\":\"quota exceeded\"\x7d\x7d" =
        .ok (Json.obj [("error", Json.obj [("message", Json.str "quota exceeded")])]) from rfl]
    dsimp only
    rw [show jsOptChain2 (Json.obj [("error", Json.obj [("message", Json.str "quota exceeded")])])
        "error" "message" = some (Json.str "quota exceeded") from rfl]
    dsimp only
    rw [if_pos (show jsTruthy (some (Json.str "quota exceeded")) = true from rfl)]
    dsimp only [jsTemplateStr]
    simp only [String.append_assoc,
      show (": " : String) ++ "quota exceeded" = ": quota exceeded" from rfl]

/-- C4 (witness): the malformed and external error kinds at concrete inputs:
an unparseable response "oops" and its wrapped diagnostic. -/
theorem C4_error_kinds_distinct_witness :
    generatePrompt (.narration (NarrationRequest.mk "" "" "" "" "" "")) (.ok "oops") =
      .error (geminiApiErrorMarker ++ "Unexpected token o in JSON") ∧
    prettyErrorMessage "Model error" (geminiApiErrorMarker ++ "Unexpected token o in JSON") =
      "Model error" ++ ": " ++ "Unexpected token o in JSON" :=
  ⟨C4_error_kinds_distinct.1 _ "oops" _ rfl,
    C4_error_kinds_distinct.2.2.1 "Model error" "oops" _ rfl⟩


/-- C5: a dialogue-mode submission in which no character has both a non-empty
trimmed name and a non-empty trimmed persona is rejected at the submission
boundary with the `errorCharacterNeeded` signal — `generatePrompt` is never
invoked. -/
theorem C5_validation_rejects (st : FormState)
    (hmode : st.speechType ≠ .narration)
    (hchars : ∀ c ∈ st.characters, jsTrim c.name = "" ∨ jsTrim c.persona = "") :
    handleSubmit st = .reject .errorCharacterNeeded := by
  have hfilter :
      st.characters.filter (fun c => jsTrim c.name ≠ "" && jsTrim c.persona ≠ "") = [] := by
    rw [List.filter_eq_nil_iff]
    intro c hc
    rcases hchars c hc with h | h <;> simp [h]
  cases hst : st.speechType with
  | narration => exact absurd hst hmode
  | oneOnOne =>
    simp [handleSubmit, hst, hfilter]
    intro x hx hname
    exact (hchars x hx).resolve_left hname
  | multi =>
    simp [handleSubmit, hst, hfilter]
    intro x hx hname
    exact (hchars x hx).resolve_left hname

/-- C5 (witness): a one-on-one submission whose single character has a
whitespace-only name is rejected before any model call. -/
theorem C5_validation_rejects_witness :
    handleSubmit (FormState.mk .oneOnOne "scene" "" "" "" "" ""
        [Character.mk "char-1" " " "a persona" ""] []) =
      .reject .errorCharacterNeeded :=
  C5_validation_rejects _ (by decide) (by decide)

/-- C6 (counterexample): the response text "null" parses successfully as JSON
and has no `integrated_text` member, yet `generatePrompt` fails — reading
`integrated_text` off `null` throws a `TypeError` that surfaces as an error —
instead of returning the parsed value with the fallback string. -/
theorem C6_counterexample :
    Json.parse (jsTrim "null") = .ok Json.null ∧
    jsMember Json.null "integrated_text" = none ∧
    generatePrompt (.narration (NarrationRequest.mk "" "" "" "" "" "")) (.ok "null") =
      .error (geminiApiErrorMarker ++
        "Cannot read properties of null (reading \x27integrated_text\x27)") :=
  ⟨rfl, rfl, rfl⟩

/-- C6 (amended): for every response that parses to a JSON value other than
`null` and lacks the `integrated_text` member, `generatePrompt` does not
fail — it returns the parsed value as `json` together with the fixed fallback
string as `integrated` (a response parsing to `null` instead raises a
`TypeError`, per the counterexample). -/
theorem C6_missing_integrated_fallback (req : PromptRequest) (raw : String) (v : Json)
    (hp : Json.parse (jsTrim raw) = .ok v) (hnn : v ≠ .null)
    (hm : jsMember v "integrated_text" = none) :
    generatePrompt req (.ok raw) = .ok ⟨v, .str integratedFallback⟩ := by
  rw [generatePrompt, hp]
  dsimp only
  have hacc : jsAccess v "integrated_text" = .ok none := by
    cases v with
    | null => exact absurd rfl hnn
    | bool b => rfl
    | num lex => rfl
    | str s => rfl
    | arr xs => rfl
    | obj fs => simp only [jsAccess]; rw [hm]
  rw [hacc]
  dsimp only
  rw [if_neg (show ¬jsTruthy none = true from fun hcon => (nomatch hcon))]

/-- C6 (witness): a parsed object without `integrated_text` flows through
with the fallback. -/
theorem C6_missing_integrated_fallback_witness :
    generatePrompt (.narration (NarrationRequest.mk "" "" "" "" "" ""))
        (.ok "\x7b\"type\":\"narration\"\x7d") =
      .ok ⟨Json.obj [("type", Json.str "narration")], .str integratedFallback⟩ :=
  C6_missing_integrated_fallback _ _ _ rfl (fun h => Json.noConfusion h) rfl


/-- C7 (counterexample): for the error string whose suffix decodes to an
object that contains `error.message` equal to the empty string, the display
is the unchanged raw error string — not the localized prefix concatenated
with the (empty) message as the claim requires. -/
theorem C7_counterexample :
    Json.parse "\x7b\"error\":\x7b\"message\":\"\"\x7d\x7d" =
      .ok (Json.obj [("error", Json.obj [("message", Json.str "")])]) ∧
    jsOptChain2 (Json.obj [("error", Json.obj [("message", Json.str "")])])
      "error" "message" = some (Json.str "") ∧
    prettyErrorMessage "Gemini Error"
      "Gemini API Error: \x7b\"error\":\x7b\"message\":\"\"\x7d\x7d" =
      "Gemini API Error: \x7b\"error\":\x7b\"message\":\"\"\x7d\x7d" ∧
    prettyErrorMessage "Gemini Error"
      "Gemini API Error: \x7b\"error\":\x7b\"message\":\"\"\x7d\x7d" ≠
      "Gemini Error" ++ ": " ++ "" := by
  refine ⟨rfl, rfl, rfl, ?_⟩
  decide

/-- C7 (amended): on a marker-prefixed error string, the display is the
localized prefix with the decoded `error.message` when the suffix decodes to
an object with a truthy (non-empty) message; the localized prefix with the
raw suffix when the suffix fails to decode; and the unchanged error string
when the suffix decodes without a truthy message. -/
theorem C7_pretty_error_display :
    (∀ (loc body : String) (v msg : Json),
      Json.parse body = .ok v → jsOptChain2 v "error" "message" = some msg →
      jsTruthy (some msg) = true →
      prettyErrorMessage loc (geminiApiErrorMarker ++ body) =
        loc ++ ": " ++ jsTemplateStr msg) ∧
    (∀ (loc body d : String), Json.parse body = .error d →
      prettyErrorMessage loc (geminiApiErrorMarker ++ body) = loc ++ ": " ++ body) ∧
    (∀ (loc body : String) (v : Json), Json.parse body = .ok v →
      jsTruthy (jsOptChain2 v "error" "message") = false →
      prettyErrorMessage loc (geminiApiErrorMarker ++ body) =
        geminiApiErrorMarker ++ body) := by
  refine ⟨?_, ?_, ?_⟩
  · intro loc body v msg hp hchain htruthy
    rw [prettyErrorMessage_marker, hp]
    dsimp only
    rw [hchain]
    dsimp only
    rw [if_pos htruthy]
  · intro loc body d hp
    rw [prettyErrorMessage_marker, hp]
  · intro loc body v hp hfalse
    rw [prettyErrorMessage_marker, hp]
    dsimp only
    cases hchain : jsOptChain2 v "error" "message" with
    | none => rfl
    | some msg =>
      rw [hchain] at hfalse
      dsimp only
      rw [if_neg (by rw [hfalse]; exact fun hcon => (nomatch hcon))]

/-- C7 (witness): the three display rules at concrete inputs — a quota-style
error body, an unparseable suffix, and an empty message. -/
theorem C7_pretty_error_display_witness :
    prettyErrorMessage "E" (geminiApiErrorMarker ++
        "\x7b\"error\":\x7b\"message\":\"quota exceeded\"\x7d\x7d") =
      "E" ++ ": " ++ jsTemplateStr (Json.str "quota exceeded") ∧
    prettyErrorMessage "E" (geminiApiErrorMarker ++ "plain failure") =
      "E" ++ ": " ++ "plain failure" ∧
    prettyErrorMessage "E" (geminiApiErrorMarker ++
        "\x7b\"error\":\x7b\"message\":\"\"\x7d\x7d") =
      geminiApiErrorMarker ++ "\x7b\"error\":\x7b\"message\":\"\"\x7d\x7d" :=
  ⟨C7_pretty_error_display.1 "E" _ _ _ rfl rfl rfl,
    C7_pretty_error_display.2.1 "E" _ "Unexpected token p in JSON" rfl,
    C7_pretty_error_display.2.2 "E" _ _ rfl rfl⟩

/-- C8 (counterexample): a response that parses but carries only `persona`
is returned as a success by the narrator-details helper, with the other three
required fields absent — the helper performs no field validation. -/
theorem C8_counterexample :
    generateNarratorDetailsSuggestion (.ok "\x7b\"persona\":\"a\"\x7d") =
      .ok (Json.obj [("persona", Json.str "a")]) ∧
    jsMember (Json.obj [("persona", Json.str "a")]) "emotion" = none ∧
    jsMember (Json.obj [("persona", Json.str "a")]) "tone" = none ∧
    jsMember (Json.obj [("persona", Json.str "a")]) "environment" = none :=
  ⟨rfl, rfl, rfl, rfl⟩

/-- C8 (amended): the narrator-details helper fails with the fixed
`MalformedResponseError` message on any parse failure or boundary error, with
no fallback value substituted; a successfully parsed JSON value is returned
exactly as parsed, without any validation of the four schema-required
fields. -/
theorem C8_narrator_details_strictness :
    (∀ (raw d : String), Json.parse (jsTrim raw) = .error d →
      generateNarratorDetailsSuggestion (.ok raw) =
        .error "Failed to generate narrator details.") ∧
    (∀ m : String, generateNarratorDetailsSuggestion (.errorWithMessage m) =
      .error "Failed to generate narrator details.") ∧
    (∀ (raw : String) (v : Json), Json.parse (jsTrim raw) = .ok v →
      generateNarratorDetailsSuggestion (.ok raw) = .ok v) := by
  refine ⟨?_, ?_, ?_⟩
  · intro raw d h
    rw [generateNarratorDetailsSuggestion, h]
  · intro m
    rfl
  · intro raw v h
    rw [generateNarratorDetailsSuggestion, h]

/-- C8 (witness): an unparseable response fails with the fixed message; a
parsed object is passed through. -/
theorem C8_narrator_details_strictness_witness :
    generateNarratorDetailsSuggestion (.ok "oops") =
      .error "Failed to generate narrator details." ∧
    generateNarratorDetailsSuggestion (.ok "\x7b\"persona\":\"p\",\"emotion\":\"e\",\"tone\":\"t\",\"environment\":\"v\"\x7d") =
      .ok (Json.obj [("persona", Json.str "p"), ("emotion", Json.str "e"),
        ("tone", Json.str "t"), ("environment", Json.str "v")]) :=
  ⟨C8_narrator_details_strictness.1 "oops" "Unexpected token o in JSON" rfl,
    C8_narrator_details_strictness.2.2 _ _ rfl⟩


/-- C9: removing a character removes it from the roster and clears its id
from every script line that referenced it (the line becomes unassigned),
while preserving the number of lines and every other field of every line; in
particular no script line references the removed id afterwards. -/
theorem C9_remove_character_clears (id : String) (characters : List Character)
    (script : List ScriptLine) :
    (∀ c ∈ (handleRemoveCharacter id characters script).1, c.id ≠ id) ∧
    (handleRemoveCharacter id characters script).2.length = script.length ∧
    (∀ (i : Nat) (l : ScriptLine), script[i]? = some l →
      (handleRemoveCharacter id characters script).2[i]? =
        some { l with characterId := if l.characterId = id then "" else l.characterId }) ∧
    (id ≠ "" → ∀ l ∈ (handleRemoveCharacter id characters script).2, l.characterId ≠ id) := by
  refine ⟨?_, ?_, ?_, ?_⟩
  · intro c hc
    simpa using (List.mem_filter.mp hc).2
  · simp [handleRemoveCharacter]
  · intro i l h
    show (script.map _)[i]? = _
    rw [List.getElem?_map, h]
    dsimp only [Option.map]
    by_cases hcid : l.characterId = id
    · rw [if_pos hcid, if_pos hcid]
    · rw [if_neg hcid, if_neg hcid]
  · intro hne l hl
    obtain ⟨l0, hl0, rfl⟩ := List.mem_map.mp hl
    by_cases hcid : l0.characterId = id
    · rw [if_pos hcid]
      exact hne.symm
    · rw [if_neg hcid]
      exact hcid

/-- C9 (witness): removing `char-1` from a concrete state clears the
reference of the line that used it and leaves the other line untouched. -/
theorem C9_remove_character_clears_witness :
    (handleRemoveCharacter "char-1"
        [Character.mk "char-1" "Alice" "hero" "", Character.mk "char-2" "Bob" "rogue" ""]
        [ScriptLine.mk "line-1" "char-1" "Hi" "joy" "warm",
         ScriptLine.mk "line-2" "char-2" "Yo" "calm" "flat"]).2[0]? =
      some (ScriptLine.mk "line-1" "" "Hi" "joy" "warm") ∧
    (∀ l ∈ (handleRemoveCharacter "char-1"
        [Character.mk "char-1" "Alice" "hero" "", Character.mk "char-2" "Bob" "rogue" ""]
        [ScriptLine.mk "line-1" "char-1" "Hi" "joy" "warm",
         ScriptLine.mk "line-2" "char-2" "Yo" "calm" "flat"]).2, l.characterId ≠ "char-1") :=
  ⟨(C9_remove_character_clears "char-1" _ _).2.2.1 0 _ rfl,
    (C9_remove_character_clears "char-1" _ _).2.2.2 (by decide)⟩

/-- C10: a response that parses successfully with `integrated_text` present
but equal to the empty string gets the fixed fallback string as `integrated`,
not the empty string — the `||` substitution fires on any falsy value, not
only on absence. -/
theorem C10_empty_integrated_fallback (req : PromptRequest) (raw : String) (v : Json)
    (hp : Json.parse (jsTrim raw) = .ok v)
    (hm : jsMember v "integrated_text" = some (.str "")) :
    generatePrompt req (.ok raw) = .ok ⟨v, .str integratedFallback⟩ := by
  rw [generatePrompt, hp]
  dsimp only
  have hacc : jsAccess v "integrated_text" = .ok (some (.str "")) := by
    cases v with
    | null => cases hm
    | bool b => cases hm
    | num lex => cases hm
    | str s => cases hm
    | arr xs => cases hm
    | obj fs => simp only [jsAccess]; rw [hm]
  rw [hacc]
  dsimp only
  rw [if_neg (show ¬jsTruthy (some (Json.str "")) = true from fun hcon => (nomatch hcon))]

/-- C10 (witness): the empty `integrated_text` is replaced by the fallback at
a concrete response. -/
theorem C10_empty_integrated_fallback_witness :
    generatePrompt (.narration (NarrationRequest.mk "" "" "" "" "" ""))
        (.ok "\x7b\"integrated_text\":\"\"\x7d") =
      .ok ⟨Json.obj [("integrated_text", Json.str "")], .str integratedFallback⟩ :=
  C10_empty_integrated_fallback _ _ _ rfl rfl

end SpeechPrompt
